import Mathlib

/-!
Verification development for the A-League forecasting backend (src/server.js,
the v5 document in that file, whose line numbers the claims cite).

The JavaScript core is shallowly embedded over the real numbers: JS number
arithmetic becomes real arithmetic, nullable values become Option, the one
impure read inside model fitting (Date.now) becomes an explicit parameter
called now, and array-accumulation loops become list sums.  Function and
constant names follow the source.
-/

namespace ALeague

/-! ## Utility functions (src/server.js v5: clamp, sigmoid, logit, poissonP, logSafe) -/

/-- clamp(x, lo, hi) = Math.max(lo, Math.min(hi, x)). -/
def clampR (x lo hi : ℝ) : ℝ := max lo (min hi x)

/-- sigmoid(z): numerically-stable logistic, split on the sign of z. -/
noncomputable def sigmoid (z : ℝ) : ℝ :=
  if 0 ≤ z then 1 / (1 + Real.exp (-z)) else Real.exp z / (1 + Real.exp z)

/-- logit(p) after clamping p into the interval from 1e-6 to 1 - 1e-6. -/
noncomputable def logit (p : ℝ) : ℝ :=
  let q := clampR p 1e-6 (1 - 1e-6)
  Real.log (q / (1 - q))

/-- logSafe(x) = log of x clamped into the interval from 1e-12 to 1 - 1e-12. -/
noncomputable def logSafe (x : ℝ) : ℝ := Real.log (clampR x 1e-12 (1 - 1e-12))

/-- poissonP(k, lam) = exp(-lam) * lam^k / k! (the source computes k! by a loop). -/
noncomputable def poissonP (k : ℕ) (lam : ℝ) : ℝ :=
  Real.exp (-lam) * lam ^ k / (Nat.factorial k)

/-! ## Configuration constants (src/server.js v5 CONFIG block) -/

def COMMISSION : ℝ := 0.05
def MAX_GOALS : ℕ := 8
def HALF_LIFE_DAYS : ℝ := 240
def MIN_GAMES_PER_TEAM : ℕ := 6
def GOAL_CAP : ℝ := 7
def SHRINK_ALPHA : ℝ := 0.10
def HA_L2 : ℝ := 0.015
def HA_L2_HA : ℝ := 0.01
def WALK_REBUILD_EVERY : ℕ := 6
def PLATT_MIN_SAMPLES : ℕ := 60
def PLATT_IMPROVE_EPS : ℝ := 0.002

/-! ## Goal preprocessor (shrinkGoals) -/

/-- shrinkGoals(hg, ag, leagueAvgGoals): winsorize each goal count with
clamp(g, 0, GOAL_CAP), then shrink toward muTeam = (leagueAvgGoals || 2.8) / 2.
The JS truthiness test makes a zero league average fall back to 2.8. -/
noncomputable def shrinkGoals (hg ag leagueAvgGoals : ℝ) : ℝ × ℝ :=
  let muTeam := (if leagueAvgGoals = 0 then 2.8 else leagueAvgGoals) / 2
  let hgC := clampR hg 0 GOAL_CAP
  let agC := clampR ag 0 GOAL_CAP
  ((1 - SHRINK_ALPHA) * hgC + SHRINK_ALPHA * muTeam,
   (1 - SHRINK_ALPHA) * agC + SHRINK_ALPHA * muTeam)

/-- Specification-side formula for the goal preprocessor, written from the
spec text of claim C7: adj = (1-alpha) * capped + alpha * (leagueAvg / 2),
with capped capping the goal count at the configured maximum.  Used only to
compare against shrinkGoals, which is translated from the source. -/
noncomputable def shrinkGoalsSpec (hg ag leagueAvgGoals : ℝ) : ℝ × ℝ :=
  ((1 - SHRINK_ALPHA) * min hg GOAL_CAP + SHRINK_ALPHA * (leagueAvgGoals / 2),
   (1 - SHRINK_ALPHA) * min ag GOAL_CAP + SHRINK_ALPHA * (leagueAvgGoals / 2))

/-! ## Platt calibration (fitPlatt, applyPlatt, loglossBinary) -/

/-- Calibration parameters: slope a and intercept b. -/
structure Platt where
  a : ℝ
  b : ℝ

/-- applyPlatt(pRaw, cal): null calibration returns pRaw unchanged. -/
noncomputable def applyPlatt (pRaw : ℝ) (cal : Option Platt) : ℝ :=
  match cal with
  | none => pRaw
  | some c => sigmoid (c.a * logit pRaw + c.b)

/-- One gradient-descent iteration of fitPlatt: accumulate the logistic-loss
gradient over the sample, add the L2 term, divide by the sample size, take a
step of size lr, and clamp both parameters into the interval from -5 to 5. -/
noncomputable def plattStep (rawPs ys : List ℝ) (lr l2 : ℝ) (ab : ℝ × ℝ) : ℝ × ℝ :=
  let ga0 := ((rawPs.zip ys).map
    (fun q => (sigmoid (ab.1 * logit q.1 + ab.2) - q.2) * logit q.1)).sum
  let gb0 := ((rawPs.zip ys).map
    (fun q => sigmoid (ab.1 * logit q.1 + ab.2) - q.2)).sum
  let ga := (ga0 + l2 * ab.1) / rawPs.length
  let gb := (gb0 + l2 * ab.2) / rawPs.length
  (clampR (ab.1 - lr * ga) (-5) 5, clampR (ab.2 - lr * gb) (-5) 5)

/-- fitPlatt(rawPs, ys, iters, lr, l2): iterated gradient descent from the
identity transform a = 1, b = 0. -/
noncomputable def fitPlatt (rawPs ys : List ℝ) (iters : ℕ) (lr l2 : ℝ) : Platt :=
  let r := (plattStep rawPs ys lr l2)^[iters] (1, 0)
  { a := r.1, b := r.2 }

/-- loglossBinary(ps, ys): mean binary log-loss with probability clamping. -/
noncomputable def loglossBinary (ps ys : List ℝ) : ℝ :=
  ((ps.zip ys).map (fun q =>
    -(q.2 * Real.log (clampR q.1 1e-12 (1 - 1e-12)) +
      (1 - q.2) * Real.log (1 - clampR q.1 1e-12 (1 - 1e-12))))).sum / ps.length

/-! ## Data model -/

/-- A unified match row (rowToUnified output): nullable kickoff timestamp in
milliseconds, nullable goal counts, season label. -/
structure UMatch where
  home : String
  away : String
  kickoff : Option ℝ
  hg : Option ℝ
  ag : Option ℝ
  season : String

/-- The played filter used throughout the source:
m.kickoffISO and m.hg != null and m.ag != null. -/
def playedBool (m : UMatch) : Bool := m.kickoff.isSome && m.hg.isSome && m.ag.isSome

/-- An adjusted match (played match plus hgAdj/agAdj from shrinkGoals). -/
structure AdjM where
  home : String
  away : String
  kickoff : ℝ
  hgAdj : ℝ
  agAdj : ℝ

/-- The mutable optimization state of buildModelFromMatches: the four strength
arrays (indexed by team position) and the home-advantage scalar. -/
structure FitState where
  attH : ℕ → ℝ
  defH : ℕ → ℝ
  attA : ℕ → ℝ
  defA : ℕ → ℝ
  ha : ℝ

/-- The pair of optional totals calibrations (cal.ou25, cal.ou35). -/
structure CalPair where
  ou25 : Option Platt
  ou35 : Option Platt

/-- A fitted strength model.  The competitor-id-to-index map idx of the source
is represented by positions in the sorted teams list; games is the per-team
total played-match count from teamMeta. -/
structure Model where
  teams : List String
  attH : List ℝ
  defH : List ℝ
  attA : List ℝ
  defA : List ℝ
  ha : ℝ
  halfLifeDays : ℝ
  minGamesPerTeam : ℕ
  games : String → ℕ
  leagueAvgGoals : ℝ
  calibration : Option CalPair

/-- A per-fixture forecast (the matchProbs return value). -/
structure Forecast where
  muH : ℝ
  muA : ℝ
  p1x2H : ℝ
  p1x2D : ℝ
  p1x2A : ℝ
  pOver25_raw : ℝ
  pOver35_raw : ℝ
  pOver25 : ℝ
  pOver35 : ℝ
  okSample : Bool

/-! ## Team extraction (Set insertion order, then sort) -/

/-- Lexicographic comparison of char lists by code point, mirroring the
default JS string comparison used by Array.prototype.sort. -/
def charListLtb : List Char → List Char → Bool
  | [], [] => false
  | [], _ :: _ => true
  | _ :: _, [] => false
  | c :: cs, d :: ds =>
    if c.val < d.val then true else if d.val < c.val then false else charListLtb cs ds

/-- String comparison by code points. -/
def strLtb (a b : String) : Bool := charListLtb a.data b.data

/-- Insertion into a sorted list of strings. -/
def insertSorted (x : String) : List String → List String
  | [] => [x]
  | y :: ys => if strLtb y x then y :: insertSorted x ys else x :: y :: ys

/-- Sorting a list of strings, mirroring the sort applied to the team set. -/
def sortStr (l : List String) : List String := l.foldr insertSorted []

/-- Set.add semantics: append the team name if it is not already present. -/
def addTeam (acc : List String) (t : String) : List String :=
  if acc.contains t then acc else acc ++ [t]

/-- The played sublist of a match list. -/
def playedOf (ms : List UMatch) : List UMatch := ms.filter playedBool

/-- The sorted list of distinct competitor names appearing in played matches. -/
def teamsOf (ms : List UMatch) : List String :=
  sortStr ((playedOf ms).foldl (fun acc m => addTeam (addTeam acc m.home) m.away) [])

/-- League average goals per match over the played matches (raw scores). -/
noncomputable def leagueAvgOf (ms : List UMatch) : ℝ :=
  let played := playedOf ms
  if 0 < played.length then
    ((played.map (fun m => m.hg.getD 0 + m.ag.getD 0)).sum) / played.length
  else 2.8

/-- The adjusted (shrunk) match list used as the fitting target. -/
noncomputable def playedAdjOf (ms : List UMatch) : List AdjM :=
  (playedOf ms).map (fun m =>
    { home := m.home
      away := m.away
      kickoff := m.kickoff.getD 0
      hgAdj := (shrinkGoals (m.hg.getD 0) (m.ag.getD 0) (leagueAvgOf ms)).1
      agAdj := (shrinkGoals (m.hg.getD 0) (m.ag.getD 0) (leagueAvgOf ms)).2 })

/-- Per-team total played-match count (teamMeta games: one increment as home
plus one increment as away per played match). -/
def gamesOf (ms : List UMatch) : String → ℕ := fun t =>
  ((playedOf ms).countP (fun m => m.home == t)) +
  ((playedOf ms).countP (fun m => m.away == t))

/-! ## The optimization iteration of buildModelFromMatches -/

/-- One iteration of the gradient loop of buildModelFromMatches: accumulate
time-decayed Poisson residuals into the four gradient arrays and the
home-advantage gradient, subtract the L2 penalty, apply the learning rate,
re-center each vector to zero mean over the n team slots, then clamp the
home advantage into the interval from -0.25 to 0.50 and every vector entry
into the interval from -1.4 to 1.4. -/
noncomputable def fitStep (n : ℕ) (idx : String → ℕ) (playedAdj : List AdjM)
    (now lam : ℝ) (s : FitState) : FitState :=
  let w : AdjM → ℝ := fun m => Real.exp (-(lam * max 0 (now - m.kickoff)))
  let eH : AdjM → ℝ := fun m =>
    (m.hgAdj - Real.exp (s.ha + s.attH (idx m.home) + s.defA (idx m.away))) * w m
  let eA : AdjM → ℝ := fun m =>
    (m.agAdj - Real.exp (s.attA (idx m.away) + s.defH (idx m.home))) * w m
  let gAttH : ℕ → ℝ := fun i =>
    (playedAdj.map (fun m => if idx m.home = i then eH m else 0)).sum - HA_L2 * s.attH i
  let gDefH : ℕ → ℝ := fun i =>
    (playedAdj.map (fun m => if idx m.home = i then eA m else 0)).sum - HA_L2 * s.defH i
  let gAttA : ℕ → ℝ := fun i =>
    (playedAdj.map (fun m => if idx m.away = i then eA m else 0)).sum - HA_L2 * s.attA i
  let gDefA : ℕ → ℝ := fun i =>
    (playedAdj.map (fun m => if idx m.away = i then eH m else 0)).sum - HA_L2 * s.defA i
  let gHa : ℝ := (playedAdj.map eH).sum - HA_L2_HA * s.ha
  let lr : ℝ := 0.03
  let attH1 : ℕ → ℝ := fun i => s.attH i + lr * gAttH i
  let defH1 : ℕ → ℝ := fun i => s.defH i + lr * gDefH i
  let attA1 : ℕ → ℝ := fun i => s.attA i + lr * gAttA i
  let defA1 : ℕ → ℝ := fun i => s.defA i + lr * gDefA i
  let ha1 : ℝ := s.ha + lr * gHa
  let zmean : (ℕ → ℝ) → ℕ → ℝ := fun v i => v i - ((List.range n).map v).sum / n
  { attH := fun i => clampR (zmean attH1 i) (-1.4) 1.4
    defH := fun i => clampR (zmean defH1 i) (-1.4) 1.4
    attA := fun i => clampR (zmean attA1 i) (-1.4) 1.4
    defA := fun i => clampR (zmean defA1 i) (-1.4) 1.4
    ha := clampR ha1 (-0.25) 0.50 }

/-- The initial optimization state: all strengths 0, home advantage 0.12. -/
def initFitState : FitState :=
  { attH := fun _ => 0, defH := fun _ => 0, attA := fun _ => 0, defA := fun _ => 0, ha := 0.12 }

/-- The optimization state after the 260 fitStep iterations of
buildModelFromMatches, starting from initFitState, with the decay rate
lam = ln 2 / half-life in milliseconds. -/
noncomputable def finalStateOf (ms : List UMatch) (now halfLifeDays : ℝ) : FitState :=
  (fitStep (teamsOf ms).length (fun t => (teamsOf ms).indexOf t) (playedAdjOf ms) now
    (Real.log 2 / (halfLifeDays * 24 * 3600 * 1000)))^[260] initFitState

/-- buildModelFromMatches(matches, halfLifeDays, minGamesPerTeam): returns
null when the played matches yield zero distinct competitors, otherwise runs
260 iterations of fitStep and packages the result.  The JS reads Date.now()
once before the loop; that read is the explicit parameter now. -/
noncomputable def buildModelFromMatches (ms : List UMatch) (now halfLifeDays : ℝ)
    (minGamesPerTeam : ℕ) : Option Model :=
  if (teamsOf ms).length = 0 then none else
  some
    { teams := teamsOf ms
      attH := (List.range (teamsOf ms).length).map (finalStateOf ms now halfLifeDays).attH
      defH := (List.range (teamsOf ms).length).map (finalStateOf ms now halfLifeDays).defH
      attA := (List.range (teamsOf ms).length).map (finalStateOf ms now halfLifeDays).attA
      defA := (List.range (teamsOf ms).length).map (finalStateOf ms now halfLifeDays).defA
      ha := (finalStateOf ms now halfLifeDays).ha
      halfLifeDays := halfLifeDays
      minGamesPerTeam := minGamesPerTeam
      games := gamesOf ms
      leagueAvgGoals := leagueAvgOf ms
      calibration := none }

/-! ## Probability engine (matchProbs) -/

/-- The home-side Poisson mean muH = exp(ha + attH[iH] + defA[iA]) read off a
model for a home/away pair (shared by matchProbs and
fitTotalsCalibrationForModel, which duplicate the formula in the source). -/
noncomputable def muHof (model : Model) (home away : String) : ℝ :=
  Real.exp (model.ha + model.attH.getD (model.teams.indexOf home) 0 +
    model.defA.getD (model.teams.indexOf away) 0)

/-- The away-side Poisson mean muA = exp(attA[iA] + defH[iH]). -/
noncomputable def muAof (model : Model) (home away : String) : ℝ :=
  Real.exp (model.attA.getD (model.teams.indexOf away) 0 +
    model.defH.getD (model.teams.indexOf home) 0)

/-- Accumulation over the scoreline grid 0..MAX_GOALS x 0..MAX_GOALS of the
joint Poisson cell masses selected by the bucket predicate f; one such sum per
accumulator of the source's double loop. -/
noncomputable def gridP (muH muA : ℝ) (f : ℕ → ℕ → Bool) : ℝ :=
  ∑ hg in Finset.range (MAX_GOALS + 1), ∑ ag in Finset.range (MAX_GOALS + 1),
    (if f hg ag then poissonP hg muH * poissonP ag muA else 0)

/-- The neutral-prior forecast returned when the model is null or a competitor
is unknown. -/
def neutralForecast : Forecast :=
  { muH := 1.45, muA := 1.30
    p1x2H := 0.40, p1x2D := 0.27, p1x2A := 0.33
    pOver25_raw := 0.56, pOver35_raw := 0.33
    pOver25 := 0.56, pOver35 := 0.33
    okSample := false }

/-- The ou25 calibration reachable from a model (model.calibration?.ou25). -/
def co25 (model : Model) : Option Platt :=
  match model.calibration with
  | none => none
  | some c => c.ou25

/-- The ou35 calibration reachable from a model (model.calibration?.ou35). -/
def co35 (model : Model) : Option Platt :=
  match model.calibration with
  | none => none
  | some c => c.ou35

/-- The home-win accumulator of the matchProbs grid loop (cells with hg > ag). -/
noncomputable def pHraw (model : Model) (home away : String) : ℝ :=
  gridP (muHof model home away) (muAof model home away) (fun hg ag => decide (ag < hg))

/-- The draw accumulator (cells with hg = ag). -/
noncomputable def pDraw (model : Model) (home away : String) : ℝ :=
  gridP (muHof model home away) (muAof model home away) (fun hg ag => decide (hg = ag))

/-- The away-win accumulator (cells with hg < ag). -/
noncomputable def pAraw (model : Model) (home away : String) : ℝ :=
  gridP (muHof model home away) (muAof model home away) (fun hg ag => decide (hg < ag))

/-- The over-2.5 accumulator (cells with total at least 3). -/
noncomputable def p25raw (model : Model) (home away : String) : ℝ :=
  gridP (muHof model home away) (muAof model home away) (fun hg ag => decide (3 ≤ hg + ag))

/-- The over-3.5 accumulator (cells with total at least 4). -/
noncomputable def p35raw (model : Model) (home away : String) : ℝ :=
  gridP (muHof model home away) (muAof model home away) (fun hg ag => decide (4 ≤ hg + ag))

/-- The grid's captured probability mass s = pH + pD + pA. -/
noncomputable def sOf (model : Model) (home away : String) : ℝ :=
  pHraw model home away + pDraw model home away + pAraw model home away

/-- matchProbs(model, home, away): neutral prior when the model is null or a
competitor is missing from the index; otherwise enumerate the scoreline grid,
renormalize every accumulator by the captured mass s when s is positive, and
apply any attached totals calibration to the normalized raw probabilities. -/
noncomputable def matchProbs (model? : Option Model) (home away : String) : Forecast :=
  match model? with
  | none => neutralForecast
  | some model =>
    if model.teams.contains home && model.teams.contains away then
      { muH := muHof model home away
        muA := muAof model home away
        p1x2H := if 0 < sOf model home away then
            pHraw model home away / sOf model home away else pHraw model home away
        p1x2D := if 0 < sOf model home away then
            pDraw model home away / sOf model home away else pDraw model home away
        p1x2A := if 0 < sOf model home away then
            pAraw model home away / sOf model home away else pAraw model home away
        pOver25_raw := if 0 < sOf model home away then
            p25raw model home away / sOf model home away else p25raw model home away
        pOver35_raw := if 0 < sOf model home away then
            p35raw model home away / sOf model home away else p35raw model home away
        pOver25 := applyPlatt (if 0 < sOf model home away then
            p25raw model home away / sOf model home away else p25raw model home away)
          (co25 model)
        pOver35 := applyPlatt (if 0 < sOf model home away then
            p35raw model home away / sOf model home away else p35raw model home away)
          (co35 model)
        okSample :=
          decide (model.minGamesPerTeam ≤ model.games home) &&
          decide (model.minGamesPerTeam ≤ model.games away) }
    else neutralForecast

/-! ## Guarded totals calibration (fitTotalsCalibrationForModel) -/

/-- The per-match calibration observations: for every training match whose
competitors are both in the model index, the clamped raw over-2.5 and over-3.5
grid probabilities and the 0/1 outcomes of the observed goal total. -/
noncomputable def calObs (model : Model) (trainMatchesPlayed : List UMatch) :
    List (ℝ × ℝ × ℝ × ℝ) :=
  trainMatchesPlayed.filterMap (fun m =>
    if model.teams.contains m.home && model.teams.contains m.away then
      let muH := muHof model m.home m.away
      let muA := muAof model m.home m.away
      let pO25 := gridP muH muA (fun hg ag => decide (3 ≤ hg + ag))
      let pO35 := gridP muH muA (fun hg ag => decide (4 ≤ hg + ag))
      let tgObs := m.hg.getD 0 + m.ag.getD 0
      some (clampR pO25 1e-6 (1 - 1e-6), if (3 : ℝ) ≤ tgObs then 1 else 0,
            clampR pO35 1e-6 (1 - 1e-6), if (4 : ℝ) ≤ tgObs then 1 else 0)
    else none)

/-- The raw over-2.5 probabilities of the calibration sample. -/
noncomputable def raw25Of (model : Model) (tr : List UMatch) : List ℝ :=
  (calObs model tr).map (fun q => q.1)

/-- The over-2.5 outcomes (0/1) of the calibration sample. -/
noncomputable def y25Of (model : Model) (tr : List UMatch) : List ℝ :=
  (calObs model tr).map (fun q => q.2.1)

/-- The raw over-3.5 probabilities of the calibration sample. -/
noncomputable def raw35Of (model : Model) (tr : List UMatch) : List ℝ :=
  (calObs model tr).map (fun q => q.2.2.1)

/-- The over-3.5 outcomes (0/1) of the calibration sample. -/
noncomputable def y35Of (model : Model) (tr : List UMatch) : List ℝ :=
  (calObs model tr).map (fun q => q.2.2.2)

/-- The Platt transform fitted on the over-2.5 sample. -/
noncomputable def fit25Of (model : Model) (tr : List UMatch) : Platt :=
  fitPlatt (raw25Of model tr) (y25Of model tr) 350 0.02 0.005

/-- The Platt transform fitted on the over-3.5 sample. -/
noncomputable def fit35Of (model : Model) (tr : List UMatch) : Platt :=
  fitPlatt (raw35Of model tr) (y35Of model tr) 350 0.02 0.005

/-- fitTotalsCalibrationForModel(model, trainMatchesPlayed): null for a null
model; otherwise fit each totals market only when the sample count reaches
PLATT_MIN_SAMPLES, and attach the fit only when its mean log-loss beats the
raw probabilities' mean log-loss by more than PLATT_IMPROVE_EPS. -/
noncomputable def fitTotalsCalibrationForModel (model? : Option Model)
    (trainMatchesPlayed : List UMatch) : Option CalPair :=
  match model? with
  | none => none
  | some model =>
    let ou25 :=
      if PLATT_MIN_SAMPLES ≤ (raw25Of model trainMatchesPlayed).length then
        let f := fit25Of model trainMatchesPlayed
        if loglossBinary ((raw25Of model trainMatchesPlayed).map
              (fun p => applyPlatt p (some f))) (y25Of model trainMatchesPlayed) +
            PLATT_IMPROVE_EPS <
            loglossBinary (raw25Of model trainMatchesPlayed) (y25Of model trainMatchesPlayed)
        then some f
        else none
      else none
    let ou35 :=
      if PLATT_MIN_SAMPLES ≤ (raw35Of model trainMatchesPlayed).length then
        let f := fit35Of model trainMatchesPlayed
        if loglossBinary ((raw35Of model trainMatchesPlayed).map
              (fun p => applyPlatt p (some f))) (y35Of model trainMatchesPlayed) +
            PLATT_IMPROVE_EPS <
            loglossBinary (raw35Of model trainMatchesPlayed) (y35Of model trainMatchesPlayed)
        then some f
        else none
      else none
    some { ou25 := ou25, ou35 := ou35 }

/-- The model-building pipeline of getModelFor: build the strength model from
the training list, then attach the guarded totals calibration fitted on the
played sublist of the same training list. -/
noncomputable def fitPipeline (ms : List UMatch) (now halfLifeDays : ℝ)
    (minGamesPerTeam : ℕ) : Option Model :=
  match buildModelFromMatches ms now halfLifeDays minGamesPerTeam with
  | none => none
  | some m =>
    some { m with calibration := fitTotalsCalibrationForModel (some m) (ms.filter playedBool) }

/-! ## Backtest walk-forward loop (the model-selection kernel of /api/backtest) -/

/-- The walk-forward rebuild: train on all non-test-season matches plus the
previously seen test fixtures; keep the old rolling model when the rebuild
yields null. -/
noncomputable def rebuildWalkModel (all : List UMatch) (season : String) (now : ℝ)
    (seen : List UMatch) (walkModel : Option Model) : Option Model :=
  let allTrain := (all.filter (fun x => !(x.season == season))) ++ seen
  match buildModelFromMatches allTrain now HALF_LIFE_DAYS MIN_GAMES_PER_TEAM with
  | some nm =>
    some { nm with
      calibration := fitTotalsCalibrationForModel (some nm) (allTrain.filter playedBool) }
  | none => walkModel

/-- The JS short-circuit walkModel || staticModel. -/
def walkOr (a b : Option Model) : Option Model :=
  match a with
  | some x => some x
  | none => b

/-- The per-fixture loop of /api/backtest restricted to what determines the
forecasts: in walk mode, every WALK_REBUILD_EVERY fixtures (at index i with
i positive and divisible by the cadence) the rolling model is rebuilt from all
non-test matches plus the seen test fixtures; the fixture is then scored with
the rolling model (falling back to the static model when it is null).  In
static mode every fixture is scored with the static model. -/
noncomputable def backtestGo (mode : String) (all : List UMatch) (season : String)
    (now : ℝ) (staticModel : Option Model) :
    ℕ → Option Model → List UMatch → List UMatch → List Forecast
  | _, _, _, [] => []
  | i, walkModel, seen, m :: rest =>
    if mode == "walk" then
      let walkModel2 :=
        if decide (0 < i) && (i % WALK_REBUILD_EVERY == 0) then
          rebuildWalkModel all season now seen walkModel
        else walkModel
      matchProbs (walkOr walkModel2 staticModel) m.home m.away ::
        backtestGo mode all season now staticModel (i + 1) walkModel2 (seen ++ [m]) rest
    else
      matchProbs staticModel m.home m.away ::
        backtestGo mode all season now staticModel (i + 1) walkModel seen rest

/-- The list of forecasts the backtest produces for the chronologically sorted
test fixtures; the rolling model starts as the static model. -/
noncomputable def backtestForecasts (mode : String) (all : List UMatch) (season : String)
    (now : ℝ) (staticModel : Option Model) (testSorted : List UMatch) : List Forecast :=
  backtestGo mode all season now staticModel 0 staticModel [] testSorted

/-! ## Concrete instances used by witnesses and counterexamples -/

/-- A single played match between two competitors. -/
def wit1 : UMatch :=
  { home := "A", away := "B", kickoff := some 0, hg := some 2, ag := some 1, season := "t" }

/-- A one-match training list. -/
def witMs : List UMatch := [wit1]

/-- A tiny hand-written model used to exercise the calibration fitter. -/
def mdl0 : Model :=
  { teams := ["A"], attH := [0], defH := [0], attA := [0], defA := [0], ha := 0
    halfLifeDays := 240, minGamesPerTeam := 6, games := fun _ => 0
    leagueAvgGoals := 2.8, calibration := none }

/-- Counterexample match for claim C2: competitor A beats B 7-0 at home,
kicking off at the build timestamp (so the recency weight is exactly 1). -/
def cexM1 : UMatch :=
  { home := "A", away := "B", kickoff := some 0, hg := some 7, ag := some 0, season := "s" }

/-- Counterexample match for claim C2: competitor A beats C 7-0 at home. -/
def cexM2 : UMatch :=
  { home := "A", away := "C", kickoff := some 0, hg := some 7, ag := some 0, season := "s" }

/-- The counterexample training list for claim C2: 1000 copies of each match. -/
def cexMatches : List UMatch := List.replicate 1000 cexM1 ++ List.replicate 1000 cexM2

/-- The adjusted form of cexM1 (league average 7, so hgAdj = 6.65, agAdj = 0.35). -/
def cexA1 : AdjM := { home := "A", away := "B", kickoff := 0, hgAdj := 6.65, agAdj := 0.35 }

/-- The adjusted form of cexM2. -/
def cexA2 : AdjM := { home := "A", away := "C", kickoff := 0, hgAdj := 6.65, agAdj := 0.35 }

/-- The decay rate used when building from cexMatches. -/
noncomputable def cexLam : ℝ := Real.log 2 / (240 * 24 * 3600 * 1000)

/-- The optimization iteration specialized to the counterexample instance. -/
noncomputable def cexStep : FitState → FitState :=
  fitStep 3 (fun t => (["A", "B", "C"] : List String).indexOf t)
    (List.replicate 1000 cexA1 ++ List.replicate 1000 cexA2) 0 cexLam

/-- The final optimization state of the counterexample instance. -/
noncomputable def cexFinal : FitState := cexStep^[260] initFitState

/-- The saturated state reached after every odd iteration on the
counterexample instance (only the home-attack and away-defense slots and the
home advantage matter for the attH dynamics). -/
def SatOdd (s : FitState) : Prop :=
  s.attH 0 = 1.4 ∧ s.attH 1 = -1.4 ∧ s.attH 2 = -1.4 ∧
  s.defA 0 = -1.4 ∧ s.defA 1 = 1.4 ∧ s.defA 2 = 1.4 ∧ s.ha = 0.5

/-- The saturated state reached after every even iteration (at least 2) on the
counterexample instance. -/
def SatEven (s : FitState) : Prop :=
  s.attH 0 = -1.4 ∧ s.attH 1 = 1.4 ∧ s.attH 2 = 1.4 ∧
  s.defA 0 = 1.4 ∧ s.defA 1 = -1.4 ∧ s.defA 2 = -1.4 ∧ s.ha = -0.25

/-! ## Basic lemmas about clamping and the logistic function -/

theorem clampR_of_mem {x lo hi : ℝ} (hlo : lo ≤ x) (hhi : x ≤ hi) : clampR x lo hi = x := by
  unfold clampR
  rw [min_eq_right hhi, max_eq_right hlo]

theorem clampR_eq_lo {x lo hi : ℝ} (h : x ≤ lo) (hlh : lo ≤ hi) : clampR x lo hi = lo := by
  unfold clampR
  rw [min_eq_right (le_trans h hlh), max_eq_left h]

theorem clampR_eq_hi {x lo hi : ℝ} (h : hi ≤ x) (hlh : lo ≤ hi) : clampR x lo hi = hi := by
  unfold clampR
  rw [min_eq_left h, max_eq_right hlh]

theorem clampR_mem {x lo hi : ℝ} (hlh : lo ≤ hi) :
    lo ≤ clampR x lo hi ∧ clampR x lo hi ≤ hi := by
  unfold clampR
  exact ⟨le_max_left _ _, max_le hlh (min_le_left _ _)⟩

theorem sigmoid_pos (z : ℝ) : 0 < sigmoid z := by
  unfold sigmoid
  split_ifs with h
  · positivity
  · exact div_pos (Real.exp_pos z) (by positivity)

theorem sigmoid_lt_one (z : ℝ) : sigmoid z < 1 := by
  unfold sigmoid
  split_ifs with h
  · rw [div_lt_one (by positivity)]
    nlinarith [Real.exp_pos (-z)]
  · rw [div_lt_one (by positivity)]
    norm_num

/-! ## Claim C4: neutral-prior fallback -/

/-- C4: whenever the model is null, or the home or away competitor is absent
from the model index, matchProbs returns exactly the neutral-prior constants
(muH 1.45, muA 1.30, result triple 0.40/0.27/0.33, over-2.5 0.56, over-3.5
0.33) with okSample false, and no error is raised (the function is total). -/
theorem c4_neutral_prior_fallback (mo : Option Model) (home away : String)
    (h : mo = none ∨ ∃ m, mo = some m ∧
      (m.teams.contains home = false ∨ m.teams.contains away = false)) :
    matchProbs mo home away =
      { muH := 1.45, muA := 1.30
        p1x2H := 0.40, p1x2D := 0.27, p1x2A := 0.33
        pOver25_raw := 0.56, pOver35_raw := 0.33
        pOver25 := 0.56, pOver35 := 0.33
        okSample := false } := by
  rcases h with h | ⟨m, rfl, h⟩
  · subst h; rfl
  · have hc : (m.teams.contains home && m.teams.contains away) = false := by
      rcases h with h | h
      · rw [h, Bool.false_and]
      · rw [h, Bool.and_false]
    simp only [matchProbs, hc, Bool.false_eq_true, if_false]
    rfl

/-- Witness for C4 at a concrete input: the null model. -/
theorem c4_witness :
    (none = (none : Option Model) ∨ ∃ m, (none : Option Model) = some m ∧
      (m.teams.contains "Adelaide United" = false ∨
       m.teams.contains "Sydney FC" = false)) ∧
    matchProbs none "Adelaide United" "Sydney FC" =
      { muH := 1.45, muA := 1.30
        p1x2H := 0.40, p1x2D := 0.27, p1x2A := 0.33
        pOver25_raw := 0.56, pOver35_raw := 0.33
        pOver25 := 0.56, pOver35 := 0.33
        okSample := false } :=
  ⟨Or.inl rfl, c4_neutral_prior_fallback none "Adelaide United" "Sydney FC" (Or.inl rfl)⟩

/-! ## Claim C7: the goal preprocessor formula -/

/-- C7 counterexample: at leagueAvgGoals = 0 the code shrinks toward the JS
truthiness default 2.8 / 2 = 1.4 rather than toward leagueAvgGoals / 2 = 0, so
shrinkGoals differs from the claimed formula at the concrete input
(hg, ag, leagueAvgGoals) = (1, 0, 0): the code returns (1.04, 0.14), the
claimed formula gives (0.9, 0). -/
theorem c7_counterexample : shrinkGoals 1 0 0 ≠ shrinkGoalsSpec 1 0 0 := by
  intro h
  rw [Prod.ext_iff] at h
  have h1 := h.1
  rw [shrinkGoals, shrinkGoalsSpec] at h1
  simp only [if_pos rfl] at h1
  rw [clampR_of_mem (by norm_num) (by norm_num [GOAL_CAP])] at h1
  rw [min_eq_left (by norm_num [GOAL_CAP])] at h1
  norm_num [SHRINK_ALPHA] at h1

/-- C7 amended: for nonnegative goal counts, shrinkGoals returns exactly the
claimed interpolation formula, except that the league average is replaced by
the default 2.8 whenever it is zero (the JS truthiness fallback); for a
nonzero league average the claim holds as stated.  The function is pure and
total. -/
theorem c7_shrink_formula (hg ag lavg : ℝ) (hhg : 0 ≤ hg) (hag : 0 ≤ ag) :
    shrinkGoals hg ag lavg = shrinkGoalsSpec hg ag (if lavg = 0 then 2.8 else lavg) := by
  rw [shrinkGoals, shrinkGoalsSpec]
  have hcap : (0 : ℝ) ≤ GOAL_CAP := by norm_num [GOAL_CAP]
  have h1 : clampR hg 0 GOAL_CAP = min hg GOAL_CAP := by
    unfold clampR
    rw [min_comm, max_eq_right (le_min hhg hcap)]
  have h2 : clampR ag 0 GOAL_CAP = min ag GOAL_CAP := by
    unfold clampR
    rw [min_comm, max_eq_right (le_min hag hcap)]
  rw [h1, h2]

/-- Witness for C7 at a concrete input with a nonzero league average. -/
theorem c7_witness :
    (0 : ℝ) ≤ 2 ∧ (0 : ℝ) ≤ 1 ∧
    shrinkGoals 2 1 3 = shrinkGoalsSpec 2 1 (if (3 : ℝ) = 0 then 2.8 else 3) :=
  ⟨by norm_num, by norm_num, c7_shrink_formula 2 1 3 (by norm_num) (by norm_num)⟩

/-! ## Claim C8: identity calibration round-trips -/

/-- C8: applying the identity calibration parameters (slope 1, intercept 0)
through applyPlatt yields sigmoid(logit(x)), and on the clamped logit domain
from 1e-6 to 1 - 1e-6 this equals x exactly. -/
theorem c8_identity_calibration (x : ℝ) (h1 : 1e-6 ≤ x) (h2 : x ≤ 1 - 1e-6) :
    applyPlatt x (some ⟨1, 0⟩) = sigmoid (logit x) ∧ sigmoid (logit x) = x := by
  constructor
  · rw [applyPlatt, one_mul, add_zero]
  · have hx0 : 0 < x := lt_of_lt_of_le (by norm_num) h1
    have hx1 : x < 1 := lt_of_le_of_lt h2 (by norm_num)
    have hx1' : 0 < 1 - x := by linarith
    have hq : 0 < x / (1 - x) := div_pos hx0 hx1'
    have hlogit : logit x = Real.log (x / (1 - x)) := by
      rw [logit, clampR_of_mem h1 h2]
    rw [hlogit, sigmoid]
    split_ifs with hz
    · rw [Real.exp_neg, Real.exp_log hq]
      rw [inv_div]
      field_simp
    · rw [Real.exp_log hq]
      field_simp

/-- Witness for C8 at x = 1/2. -/
theorem c8_witness :
    (1e-6 : ℝ) ≤ 1/2 ∧ (1/2 : ℝ) ≤ 1 - 1e-6 ∧
    (applyPlatt (1/2) (some ⟨1, 0⟩) = sigmoid (logit (1/2)) ∧
     sigmoid (logit (1/2)) = 1/2) :=
  ⟨by norm_num, by norm_num, c8_identity_calibration (1/2) (by norm_num) (by norm_num)⟩

/-! ## Grid lemmas for the probability engine -/

theorem poissonP_nonneg (k : ℕ) {lam : ℝ} (h : 0 ≤ lam) : 0 ≤ poissonP k lam := by
  unfold poissonP
  positivity

theorem poissonP_zero_pos (lam : ℝ) : 0 < poissonP 0 lam := by
  unfold poissonP
  simp [Nat.factorial]
  positivity

theorem gridP_nonneg {muH muA : ℝ} (hH : 0 ≤ muH) (hA : 0 ≤ muA) (f : ℕ → ℕ → Bool) :
    0 ≤ gridP muH muA f := by
  unfold gridP
  refine Finset.sum_nonneg fun hg _ => Finset.sum_nonneg fun ag _ => ?_
  split_ifs
  · exact mul_nonneg (poissonP_nonneg _ hH) (poissonP_nonneg _ hA)
  · exact le_refl _

theorem gridP_mono {muH muA : ℝ} (hH : 0 ≤ muH) (hA : 0 ≤ muA) {f g : ℕ → ℕ → Bool}
    (hfg : ∀ hg ag, f hg ag = true → g hg ag = true) :
    gridP muH muA f ≤ gridP muH muA g := by
  unfold gridP
  refine Finset.sum_le_sum fun hg _ => Finset.sum_le_sum fun ag _ => ?_
  by_cases hf : f hg ag
  · rw [if_pos hf, if_pos (hfg _ _ hf)]
  · rw [if_neg hf]
    split_ifs
    · exact mul_nonneg (poissonP_nonneg _ hH) (poissonP_nonneg _ hA)
    · exact le_refl _

theorem gridP_ge_cell00 {muH muA : ℝ} (hH : 0 ≤ muH) (hA : 0 ≤ muA) {f : ℕ → ℕ → Bool}
    (h00 : f 0 0 = true) :
    poissonP 0 muH * poissonP 0 muA ≤ gridP muH muA f := by
  unfold gridP
  have hterm : ∀ hg ag, (0 : ℝ) ≤ if f hg ag then poissonP hg muH * poissonP ag muA else 0 := by
    intro hg ag
    split_ifs
    · exact mul_nonneg (poissonP_nonneg _ hH) (poissonP_nonneg _ hA)
    · exact le_refl _
  have h1 : (if f 0 0 then poissonP 0 muH * poissonP 0 muA else 0) ≤
      ∑ ag in Finset.range (MAX_GOALS + 1),
        (if f 0 ag then poissonP 0 muH * poissonP ag muA else 0) :=
    Finset.single_le_sum (fun ag _ => hterm 0 ag) (Finset.mem_range.mpr (Nat.succ_pos _))
  rw [if_pos h00] at h1
  have h2 : (∑ ag in Finset.range (MAX_GOALS + 1),
        (if f 0 ag then poissonP 0 muH * poissonP ag muA else 0)) ≤
      ∑ hg in Finset.range (MAX_GOALS + 1), ∑ ag in Finset.range (MAX_GOALS + 1),
        (if f hg ag then poissonP hg muH * poissonP ag muA else 0) :=
    Finset.single_le_sum
      (fun hg _ => Finset.sum_nonneg fun ag _ => hterm hg ag)
      (Finset.mem_range.mpr (Nat.succ_pos _))
  exact le_trans h1 h2

theorem gridP_tri (muH muA : ℝ) :
    gridP muH muA (fun hg ag => decide (ag < hg)) +
    gridP muH muA (fun hg ag => decide (hg = ag)) +
    gridP muH muA (fun hg ag => decide (hg < ag)) =
    gridP muH muA (fun _ _ => true) := by
  unfold gridP
  rw [← Finset.sum_add_distrib, ← Finset.sum_add_distrib]
  refine Finset.sum_congr rfl fun hg _ => ?_
  rw [← Finset.sum_add_distrib, ← Finset.sum_add_distrib]
  refine Finset.sum_congr rfl fun ag _ => ?_
  rcases Nat.lt_trichotomy hg ag with h | h | h
  · simp [h, Nat.lt_asymm h, Nat.ne_of_lt h]
  · subst h
    simp [Nat.lt_irrefl]
  · simp [h, Nat.lt_asymm h, (Nat.ne_of_lt h).symm]

theorem sOf_def (model : Model) (home away : String) :
    sOf model home away = pHraw model home away + pDraw model home away + pAraw model home away :=
  rfl

theorem muHof_pos (model : Model) (home away : String) : 0 < muHof model home away :=
  Real.exp_pos _

theorem muAof_pos (model : Model) (home away : String) : 0 < muAof model home away :=
  Real.exp_pos _

theorem pHraw_nonneg (model : Model) (home away : String) : 0 ≤ pHraw model home away :=
  gridP_nonneg (muHof_pos model home away).le (muAof_pos model home away).le _

theorem pAraw_nonneg (model : Model) (home away : String) : 0 ≤ pAraw model home away :=
  gridP_nonneg (muHof_pos model home away).le (muAof_pos model home away).le _

theorem p25raw_nonneg (model : Model) (home away : String) : 0 ≤ p25raw model home away :=
  gridP_nonneg (muHof_pos model home away).le (muAof_pos model home away).le _

theorem p35raw_nonneg (model : Model) (home away : String) : 0 ≤ p35raw model home away :=
  gridP_nonneg (muHof_pos model home away).le (muAof_pos model home away).le _

theorem sOf_pos (model : Model) (home away : String) : 0 < sOf model home away := by
  have hcell : 0 < poissonP 0 (muHof model home away) * poissonP 0 (muAof model home away) :=
    mul_pos (poissonP_zero_pos _) (poissonP_zero_pos _)
  have hD : poissonP 0 (muHof model home away) * poissonP 0 (muAof model home away) ≤
      pDraw model home away :=
    gridP_ge_cell00 (muHof_pos model home away).le (muAof_pos model home away).le (by simp)
  have h1 := pHraw_nonneg model home away
  have h2 := pAraw_nonneg model home away
  rw [sOf_def]
  linarith

theorem p25raw_le_sOf (model : Model) (home away : String) :
    p25raw model home away ≤ sOf model home away := by
  rw [sOf_def]
  have h := gridP_tri (muHof model home away) (muAof model home away)
  have hmono : gridP (muHof model home away) (muAof model home away)
      (fun hg ag => decide (3 ≤ hg + ag)) ≤
      gridP (muHof model home away) (muAof model home away) (fun _ _ => true) :=
    gridP_mono (muHof_pos model home away).le (muAof_pos model home away).le
      (fun _ _ _ => rfl)
  unfold pHraw pDraw pAraw p25raw
  linarith

theorem p35raw_le_p25raw (model : Model) (home away : String) :
    p35raw model home away ≤ p25raw model home away := by
  unfold p35raw p25raw
  refine gridP_mono (muHof_pos model home away).le (muAof_pos model home away).le ?_
  intro hg ag h
  simp only [decide_eq_true_eq] at h ⊢
  omega

theorem p35raw_le_sOf (model : Model) (home away : String) :
    p35raw model home away ≤ sOf model home away :=
  le_trans (p35raw_le_p25raw model home away) (p25raw_le_sOf model home away)

theorem applyPlatt_mem {p : ℝ} (h0 : 0 ≤ p) (h1 : p ≤ 1) (co : Option Platt) :
    0 ≤ applyPlatt p co ∧ applyPlatt p co ≤ 1 := by
  cases co with
  | none => exact ⟨h0, h1⟩
  | some c => exact ⟨(sigmoid_pos _).le, (sigmoid_lt_one _).le⟩

theorem matchProbs_of_contains (model : Model) (home away : String)
    (h : (model.teams.contains home && model.teams.contains away) = true) :
    matchProbs (some model) home away =
      { muH := muHof model home away
        muA := muAof model home away
        p1x2H := if 0 < sOf model home away then
            pHraw model home away / sOf model home away else pHraw model home away
        p1x2D := if 0 < sOf model home away then
            pDraw model home away / sOf model home away else pDraw model home away
        p1x2A := if 0 < sOf model home away then
            pAraw model home away / sOf model home away else pAraw model home away
        pOver25_raw := if 0 < sOf model home away then
            p25raw model home away / sOf model home away else p25raw model home away
        pOver35_raw := if 0 < sOf model home away then
            p35raw model home away / sOf model home away else p35raw model home away
        pOver25 := applyPlatt (if 0 < sOf model home away then
            p25raw model home away / sOf model home away else p25raw model home away)
          (co25 model)
        pOver35 := applyPlatt (if 0 < sOf model home away then
            p35raw model home away / sOf model home away else p35raw model home away)
          (co35 model)
        okSample :=
          decide (model.minGamesPerTeam ≤ model.games home) &&
          decide (model.minGamesPerTeam ≤ model.games away) } := by
  simp only [matchProbs, h]
  rfl

/-! ## Claim C1: probabilities are normalized and bounded -/

/-- C1: for a model produced by the fitting pipeline and a pair of competitors
in its index, the result triple of matchProbs sums to exactly 1 after the
renormalization by the grid's captured mass (hence agrees with 1 within 1e-9),
and the four totals-over probabilities (raw and calibrated, both thresholds)
lie in the closed unit interval. -/
theorem c1_probabilities_normalized (ms : List UMatch) (now hl : ℝ) (mg : ℕ)
    (model : Model) (home away : String)
    (hm : fitPipeline ms now hl mg = some model)
    (hh : model.teams.contains home = true) (ha2 : model.teams.contains away = true) :
    ((matchProbs (some model) home away).p1x2H + (matchProbs (some model) home away).p1x2D +
      (matchProbs (some model) home away).p1x2A = 1) ∧
    (0 ≤ (matchProbs (some model) home away).pOver25_raw ∧
      (matchProbs (some model) home away).pOver25_raw ≤ 1) ∧
    (0 ≤ (matchProbs (some model) home away).pOver35_raw ∧
      (matchProbs (some model) home away).pOver35_raw ≤ 1) ∧
    (0 ≤ (matchProbs (some model) home away).pOver25 ∧
      (matchProbs (some model) home away).pOver25 ≤ 1) ∧
    (0 ≤ (matchProbs (some model) home away).pOver35 ∧
      (matchProbs (some model) home away).pOver35 ≤ 1) := by
  have hcont : (model.teams.contains home && model.teams.contains away) = true := by
    rw [hh, ha2]; rfl
  rw [matchProbs_of_contains model home away hcont]
  have hs := sOf_pos model home away
  have h25mem : 0 ≤ p25raw model home away / sOf model home away ∧
      p25raw model home away / sOf model home away ≤ 1 := by
    constructor
    · exact div_nonneg (p25raw_nonneg model home away) hs.le
    · rw [div_le_one hs]
      exact p25raw_le_sOf model home away
  have h35mem : 0 ≤ p35raw model home away / sOf model home away ∧
      p35raw model home away / sOf model home away ≤ 1 := by
    constructor
    · exact div_nonneg (p35raw_nonneg model home away) hs.le
    · rw [div_le_one hs]
      exact p35raw_le_sOf model home away
  refine ⟨?_, ?_, ?_, ?_, ?_⟩
  · show (if 0 < sOf model home away then _ else _) + _ + _ = 1
    rw [if_pos hs, if_pos hs, if_pos hs, div_add_div_same, div_add_div_same,
      ← sOf_def, div_self hs.ne']
  · show 0 ≤ (if 0 < sOf model home away then _ else _) ∧ _
    rw [if_pos hs]
    exact h25mem
  · show 0 ≤ (if 0 < sOf model home away then _ else _) ∧ _
    rw [if_pos hs]
    exact h35mem
  · show 0 ≤ applyPlatt _ _ ∧ _
    rw [if_pos hs]
    exact applyPlatt_mem h25mem.1 h25mem.2 _
  · show 0 ≤ applyPlatt _ _ ∧ _
    rw [if_pos hs]
    exact applyPlatt_mem h35mem.1 h35mem.2 _

/-- Witness for C1 on the model fitted from the one-match training list. -/
theorem c1_witness :
    (fitPipeline witMs 0 240 6).elim False (fun model =>
      ((matchProbs (some model) "A" "B").p1x2H + (matchProbs (some model) "A" "B").p1x2D +
        (matchProbs (some model) "A" "B").p1x2A = 1) ∧
      (0 ≤ (matchProbs (some model) "A" "B").pOver25_raw ∧
        (matchProbs (some model) "A" "B").pOver25_raw ≤ 1) ∧
      (0 ≤ (matchProbs (some model) "A" "B").pOver35_raw ∧
        (matchProbs (some model) "A" "B").pOver35_raw ≤ 1) ∧
      (0 ≤ (matchProbs (some model) "A" "B").pOver25 ∧
        (matchProbs (some model) "A" "B").pOver25 ≤ 1) ∧
      (0 ≤ (matchProbs (some model) "A" "B").pOver35 ∧
        (matchProbs (some model) "A" "B").pOver35 ≤ 1)) := by
  have hsome : (fitPipeline witMs 0 240 6).isSome = true := rfl
  rw [← Option.some_get hsome]
  exact c1_probabilities_normalized witMs 0 240 6 _ "A" "B"
    (Option.some_get hsome).symm rfl rfl

/-! ## Claim C9: totals monotonicity in the threshold -/

/-- C9: for a fitted model and competitors in its index, the raw over-3.5
probability never exceeds the raw over-2.5 probability: the over-3.5 grid
cells are a subset of the over-2.5 cells and both sums are divided by the same
captured mass. -/
theorem c9_totals_monotone (ms : List UMatch) (now hl : ℝ) (mg : ℕ)
    (model : Model) (home away : String)
    (hm : buildModelFromMatches ms now hl mg = some model)
    (hh : model.teams.contains home = true) (ha2 : model.teams.contains away = true) :
    (matchProbs (some model) home away).pOver35_raw ≤
    (matchProbs (some model) home away).pOver25_raw := by
  have hcont : (model.teams.contains home && model.teams.contains away) = true := by
    rw [hh, ha2]; rfl
  rw [matchProbs_of_contains model home away hcont]
  have hs := sOf_pos model home away
  show (if 0 < sOf model home away then _ else _) ≤ (if 0 < sOf model home away then _ else _)
  rw [if_pos hs, if_pos hs]
  exact (div_le_div_iff_of_pos_right hs).mpr (p35raw_le_p25raw model home away)

/-- Witness for C9 on the model fitted from the one-match training list. -/
theorem c9_witness :
    (buildModelFromMatches witMs 0 240 6).elim False (fun model =>
      (matchProbs (some model) "A" "B").pOver35_raw ≤
      (matchProbs (some model) "A" "B").pOver25_raw) := by
  have hsome : (buildModelFromMatches witMs 0 240 6).isSome = true := rfl
  rw [← Option.some_get hsome]
  exact c9_totals_monotone witMs 0 240 6 _ "A" "B" (Option.some_get hsome).symm rfl rfl

/-! ## Claim C6: determinism of the fitting pipeline -/

/-- C6: fitting is a deterministic mapping.  The only impure read of the
source fit (Date.now) is the explicit parameter now of the embedding; with
equal training lists, clock readings and configuration, two runs of
buildModelFromMatches, of the calibration-attaching pipeline, and of every
subsequent forecast agree exactly. -/
theorem c6_deterministic_fit (ms1 ms2 : List UMatch) (now1 now2 hl1 hl2 : ℝ)
    (mg1 mg2 : ℕ) (hms : ms1 = ms2) (hnow : now1 = now2) (hhl : hl1 = hl2)
    (hmg : mg1 = mg2) :
    buildModelFromMatches ms1 now1 hl1 mg1 = buildModelFromMatches ms2 now2 hl2 mg2 ∧
    fitPipeline ms1 now1 hl1 mg1 = fitPipeline ms2 now2 hl2 mg2 ∧
    ∀ home away : String,
      matchProbs (fitPipeline ms1 now1 hl1 mg1) home away =
      matchProbs (fitPipeline ms2 now2 hl2 mg2) home away := by
  subst hms; subst hnow; subst hhl; subst hmg
  exact ⟨rfl, rfl, fun _ _ => rfl⟩

/-- Witness for C6 on the one-match training list. -/
theorem c6_witness :
    buildModelFromMatches witMs 0 240 6 = buildModelFromMatches witMs 0 240 6 ∧
    fitPipeline witMs 0 240 6 = fitPipeline witMs 0 240 6 ∧
    ∀ home away : String,
      matchProbs (fitPipeline witMs 0 240 6) home away =
      matchProbs (fitPipeline witMs 0 240 6) home away :=
  c6_deterministic_fit witMs witMs 0 0 240 240 6 6 rfl rfl rfl rfl

/-! ## Claim C5: walk-forward equals static below the rebuild cadence -/

theorem walkOr_self (o : Option Model) : walkOr o o = o := by
  cases o <;> rfl

theorem backtestGo_static_indep (all : List UMatch) (season : String) (now : ℝ)
    (staticModel : Option Model) :
    ∀ (rem : List UMatch) (i : ℕ) (w1 w2 : Option Model) (s1 s2 : List UMatch),
      backtestGo "static" all season now staticModel i w1 s1 rem =
      backtestGo "static" all season now staticModel i w2 s2 rem := by
  intro rem
  induction rem with
  | nil => intro i w1 w2 s1 s2; rfl
  | cons m rest ih =>
    intro i w1 w2 s1 s2
    have hs : (("static" : String) == "walk") = false := rfl
    simp only [backtestGo, hs, Bool.false_eq_true, if_false]
    exact congrArg _ (ih (i + 1) w1 w2 s1 s2)

theorem backtestGo_no_rebuild (all : List UMatch) (season : String) (now : ℝ)
    (staticModel : Option Model) :
    ∀ (rem : List UMatch) (i : ℕ) (seen : List UMatch),
      i + rem.length ≤ WALK_REBUILD_EVERY →
      backtestGo "walk" all season now staticModel i staticModel seen rem =
      backtestGo "static" all season now staticModel i staticModel seen rem := by
  intro rem
  induction rem with
  | nil => intro i seen _; rfl
  | cons m rest ih =>
    intro i seen hle
    have hW : WALK_REBUILD_EVERY = 6 := rfl
    rw [List.length_cons, hW] at hle
    have hcond : (decide (0 < i) && (i % WALK_REBUILD_EVERY == 0)) = false := by
      rcases Nat.eq_zero_or_pos i with h0 | hpos
      · subst h0; rfl
      · have hi : i % WALK_REBUILD_EVERY = i := Nat.mod_eq_of_lt (by rw [hW]; omega)
        have hne : (i % WALK_REBUILD_EVERY == 0) = false := by
          rw [hi]
          exact beq_eq_false_iff_ne.mpr (Nat.pos_iff_ne_zero.mp hpos)
        rw [hne, Bool.and_false]
    have hw : (("walk" : String) == "walk") = true := rfl
    have hs : (("static" : String) == "walk") = false := rfl
    simp only [backtestGo, hw, hs, hcond, Bool.false_eq_true, if_false, if_true]
    rw [walkOr_self]
    have htail := ih (i + 1) (seen ++ [m]) (by rw [hW]; omega)
    rw [htail]
    exact congrArg _ (backtestGo_static_indep all season now staticModel rest (i + 1)
      staticModel staticModel (seen ++ [m]) seen)

/-- C5: when the test season has fewer played fixtures than the rebuild
cadence, no rebuild boundary (index i positive and divisible by the cadence)
is crossed, the rolling model stays the static model, and walk-forward mode
produces exactly the same forecast for every test fixture as static mode. -/
theorem c5_walk_equals_static (all : List UMatch) (season : String) (now : ℝ)
    (staticModel : Option Model) (testSorted : List UMatch)
    (h : testSorted.length < WALK_REBUILD_EVERY) :
    backtestForecasts "walk" all season now staticModel testSorted =
    backtestForecasts "static" all season now staticModel testSorted := by
  unfold backtestForecasts
  exact backtestGo_no_rebuild all season now staticModel testSorted 0 [] (by omega)

/-- Witness for C5 on a one-fixture test season. -/
theorem c5_witness :
    ([wit1].length < WALK_REBUILD_EVERY) ∧
    backtestForecasts "walk" [] "t" 0 none [wit1] =
    backtestForecasts "static" [] "t" 0 none [wit1] :=
  ⟨by norm_num [WALK_REBUILD_EVERY],
   c5_walk_equals_static [] "t" 0 none [wit1] (by norm_num [WALK_REBUILD_EVERY])⟩

/-! ## Claim C3: the calibration guardrail -/

/-- C3: for a non-null model, fitTotalsCalibrationForModel attaches parameters
for a totals market exactly when the usable-observation count reaches
PLATT_MIN_SAMPLES and the fitted transform's mean log-loss on the fitting
sample undercuts the raw mean log-loss by more than PLATT_IMPROVE_EPS;
otherwise nothing is attached for that market, and a null calibration leaves
the raw probability unchanged (applyPlatt with null is the identity). -/
theorem c3_calibration_guardrail (model : Model) (tr : List UMatch) (c : CalPair)
    (h : fitTotalsCalibrationForModel (some model) tr = some c) :
    (c.ou25.isSome = true ↔
      PLATT_MIN_SAMPLES ≤ (raw25Of model tr).length ∧
      loglossBinary ((raw25Of model tr).map
          (fun p => applyPlatt p (some (fit25Of model tr)))) (y25Of model tr) +
          PLATT_IMPROVE_EPS <
        loglossBinary (raw25Of model tr) (y25Of model tr)) ∧
    (c.ou35.isSome = true ↔
      PLATT_MIN_SAMPLES ≤ (raw35Of model tr).length ∧
      loglossBinary ((raw35Of model tr).map
          (fun p => applyPlatt p (some (fit35Of model tr)))) (y35Of model tr) +
          PLATT_IMPROVE_EPS <
        loglossBinary (raw35Of model tr) (y35Of model tr)) ∧
    (∀ p : ℝ, applyPlatt p none = p) := by
  simp only [fitTotalsCalibrationForModel] at h
  split_ifs at h <;>
    (replace h := Option.some.inj h; subst h) <;>
    refine ⟨?_, ?_, fun p => rfl⟩ <;> simp_all

/-- Witness for C3: the empty training sample attaches no calibration. -/
theorem c3_witness :
    fitTotalsCalibrationForModel (some mdl0) [] = some ⟨none, none⟩ ∧
    ((({ ou25 := none, ou35 := none } : CalPair).ou25.isSome = true ↔
      PLATT_MIN_SAMPLES ≤ (raw25Of mdl0 []).length ∧
      loglossBinary ((raw25Of mdl0 []).map
          (fun p => applyPlatt p (some (fit25Of mdl0 [])))) (y25Of mdl0 []) +
          PLATT_IMPROVE_EPS <
        loglossBinary (raw25Of mdl0 []) (y25Of mdl0 [])) ∧
    (({ ou25 := none, ou35 := none } : CalPair).ou35.isSome = true ↔
      PLATT_MIN_SAMPLES ≤ (raw35Of mdl0 []).length ∧
      loglossBinary ((raw35Of mdl0 []).map
          (fun p => applyPlatt p (some (fit35Of mdl0 [])))) (y35Of mdl0 []) +
          PLATT_IMPROVE_EPS <
        loglossBinary (raw35Of mdl0 []) (y35Of mdl0 [])) ∧
    (∀ p : ℝ, applyPlatt p none = p)) :=
  ⟨rfl, c3_calibration_guardrail mdl0 [] ⟨none, none⟩ rfl⟩

/-! ## Claim C10: the per-iteration clamp bounds every fitted parameter -/

theorem fitStep_bounds (n : ℕ) (idx : String → ℕ) (padj : List AdjM) (now lam : ℝ)
    (s : FitState) :
    (∀ i, -1.4 ≤ (fitStep n idx padj now lam s).attH i ∧
      (fitStep n idx padj now lam s).attH i ≤ 1.4) ∧
    (∀ i, -1.4 ≤ (fitStep n idx padj now lam s).defH i ∧
      (fitStep n idx padj now lam s).defH i ≤ 1.4) ∧
    (∀ i, -1.4 ≤ (fitStep n idx padj now lam s).attA i ∧
      (fitStep n idx padj now lam s).attA i ≤ 1.4) ∧
    (∀ i, -1.4 ≤ (fitStep n idx padj now lam s).defA i ∧
      (fitStep n idx padj now lam s).defA i ≤ 1.4) ∧
    (-0.25 ≤ (fitStep n idx padj now lam s).ha ∧
      (fitStep n idx padj now lam s).ha ≤ 0.50) := by
  unfold fitStep
  exact ⟨fun i => clampR_mem (by norm_num), fun i => clampR_mem (by norm_num),
    fun i => clampR_mem (by norm_num), fun i => clampR_mem (by norm_num),
    clampR_mem (by norm_num)⟩

theorem finalStateOf_bounds (ms : List UMatch) (now hl : ℝ) :
    (∀ i, -1.4 ≤ (finalStateOf ms now hl).attH i ∧ (finalStateOf ms now hl).attH i ≤ 1.4) ∧
    (∀ i, -1.4 ≤ (finalStateOf ms now hl).defH i ∧ (finalStateOf ms now hl).defH i ≤ 1.4) ∧
    (∀ i, -1.4 ≤ (finalStateOf ms now hl).attA i ∧ (finalStateOf ms now hl).attA i ≤ 1.4) ∧
    (∀ i, -1.4 ≤ (finalStateOf ms now hl).defA i ∧ (finalStateOf ms now hl).defA i ≤ 1.4) ∧
    (-0.25 ≤ (finalStateOf ms now hl).ha ∧ (finalStateOf ms now hl).ha ≤ 0.50) := by
  unfold finalStateOf
  rw [show (260 : ℕ) = 259 + 1 from rfl, Function.iterate_succ_apply']
  exact fitStep_bounds _ _ _ _ _ _

/-- Destructor for a successful buildModelFromMatches call: the competitor
list is nonempty and the model is the packaged final optimization state. -/
theorem buildModel_inv {ms : List UMatch} {now hl : ℝ} {mg : ℕ} {model : Model}
    (h : buildModelFromMatches ms now hl mg = some model) :
    (teamsOf ms).length ≠ 0 ∧
    model =
      { teams := teamsOf ms
        attH := (List.range (teamsOf ms).length).map (finalStateOf ms now hl).attH
        defH := (List.range (teamsOf ms).length).map (finalStateOf ms now hl).defH
        attA := (List.range (teamsOf ms).length).map (finalStateOf ms now hl).attA
        defA := (List.range (teamsOf ms).length).map (finalStateOf ms now hl).defA
        ha := (finalStateOf ms now hl).ha
        halfLifeDays := hl
        minGamesPerTeam := mg
        games := gamesOf ms
        leagueAvgGoals := leagueAvgOf ms
        calibration := none } := by
  unfold buildModelFromMatches at h
  by_cases hn : (teamsOf ms).length = 0
  · rw [if_pos hn] at h
    exact absurd h (by simp)
  · rw [if_neg hn] at h
    exact ⟨hn, (Option.some.inj h).symm⟩

theorem getD_le_of_forall {c : ℝ} (hc : 0 ≤ c) :
    ∀ (l : List ℝ) (i : ℕ), (∀ x ∈ l, x ≤ c) → l.getD i 0 ≤ c := by
  intro l
  induction l with
  | nil => intro i _; simpa using hc
  | cons x xs ih =>
    intro i h
    cases i with
    | zero => simpa using h x (by simp)
    | succ j =>
      simpa using ih j (fun y hy => h y (by simp [hy]))

/-- C10: every model returned by buildModelFromMatches carries a home
advantage clamped into the interval from -0.25 to 0.50 and strength entries
clamped into the interval from -1.4 to 1.4 (the clamp is the final update of
every iteration), so every Poisson mean computed by matchProbs from a fitted
model is at most exp(3.3). -/
theorem c10_parameter_clamps (ms : List UMatch) (now hl : ℝ) (mg : ℕ) (model : Model)
    (hm : buildModelFromMatches ms now hl mg = some model) :
    (-0.25 ≤ model.ha ∧ model.ha ≤ 0.50) ∧
    (∀ x ∈ model.attH, -1.4 ≤ x ∧ x ≤ 1.4) ∧
    (∀ x ∈ model.defH, -1.4 ≤ x ∧ x ≤ 1.4) ∧
    (∀ x ∈ model.attA, -1.4 ≤ x ∧ x ≤ 1.4) ∧
    (∀ x ∈ model.defA, -1.4 ≤ x ∧ x ≤ 1.4) ∧
    (∀ home away : String, model.teams.contains home = true →
      model.teams.contains away = true →
      (matchProbs (some model) home away).muH ≤ Real.exp 3.3 ∧
      (matchProbs (some model) home away).muA ≤ Real.exp 3.3) := by
  obtain ⟨hn, hmodel⟩ := buildModel_inv hm
  obtain ⟨hAH, hDH, hAA, hDA, hHA⟩ := finalStateOf_bounds ms now hl
  have hmem : ∀ (v : ℕ → ℝ), (∀ i, -1.4 ≤ v i ∧ v i ≤ 1.4) →
      ∀ x ∈ (List.range (teamsOf ms).length).map v, -1.4 ≤ x ∧ x ≤ 1.4 := by
    intro v hv x hx
    obtain ⟨i, _, rfl⟩ := List.mem_map.mp hx
    exact hv i
  have hha : model.ha = (finalStateOf ms now hl).ha := by rw [hmodel]
  have hattH : ∀ x ∈ model.attH, -1.4 ≤ x ∧ x ≤ 1.4 := by
    rw [hmodel]; exact hmem _ hAH
  have hdefH : ∀ x ∈ model.defH, -1.4 ≤ x ∧ x ≤ 1.4 := by
    rw [hmodel]; exact hmem _ hDH
  have hattA : ∀ x ∈ model.attA, -1.4 ≤ x ∧ x ≤ 1.4 := by
    rw [hmodel]; exact hmem _ hAA
  have hdefA : ∀ x ∈ model.defA, -1.4 ≤ x ∧ x ≤ 1.4 := by
    rw [hmodel]; exact hmem _ hDA
  refine ⟨by rw [hha]; exact hHA, hattH, hdefH, hattA, hdefA, ?_⟩
  intro home away hh ha2
  have hcont : (model.teams.contains home && model.teams.contains away) = true := by
    rw [hh, ha2]; rfl
  rw [matchProbs_of_contains model home away hcont]
  have hub : model.ha ≤ 0.50 := by rw [hha]; exact hHA.2
  constructor
  · show muHof model home away ≤ Real.exp 3.3
    unfold muHof
    apply Real.exp_le_exp.mpr
    have b1 : model.attH.getD (model.teams.indexOf home) 0 ≤ 1.4 :=
      getD_le_of_forall (by norm_num) _ _ (fun x hx => (hattH x hx).2)
    have b2 : model.defA.getD (model.teams.indexOf away) 0 ≤ 1.4 :=
      getD_le_of_forall (by norm_num) _ _ (fun x hx => (hdefA x hx).2)
    linarith
  · show muAof model home away ≤ Real.exp 3.3
    unfold muAof
    apply Real.exp_le_exp.mpr
    have b1 : model.attA.getD (model.teams.indexOf away) 0 ≤ 1.4 :=
      getD_le_of_forall (by norm_num) _ _ (fun x hx => (hattA x hx).2)
    have b2 : model.defH.getD (model.teams.indexOf home) 0 ≤ 1.4 :=
      getD_le_of_forall (by norm_num) _ _ (fun x hx => (hdefH x hx).2)
    linarith

/-! ## List computation helpers for the C2 instance -/

theorem filter_replicate_of_pos {α : Type} (p : α → Bool) (a : α) (h : p a = true) :
    ∀ k : ℕ, (List.replicate k a).filter p = List.replicate k a := by
  intro k
  induction k with
  | zero => rfl
  | succ j ih => rw [List.replicate_succ, List.filter_cons, if_pos h, ih]

theorem foldl_replicate_fix {α β : Type} (f : α → β → α) (acc : α) (b : β)
    (h : f acc b = acc) : ∀ k : ℕ, List.foldl f acc (List.replicate k b) = acc := by
  intro k
  induction k with
  | zero => rfl
  | succ j ih => rw [List.replicate_succ, List.foldl_cons, h, ih]

theorem sum_map_sub_const (v : ℕ → ℝ) (n : ℕ) (c : ℝ) :
    ((List.range n).map (fun i => v i - c)).sum = ((List.range n).map v).sum - n * c := by
  induction n with
  | zero => simp
  | succ m ih =>
    rw [List.range_succ, List.map_append, List.map_append, List.sum_append, List.sum_append, ih]
    push_cast
    simp
    ring

theorem zmean_sum_zero (v : ℕ → ℝ) (n : ℕ) (hn : n ≠ 0) :
    ((List.range n).map (fun i => v i - ((List.range n).map v).sum / n)).sum = 0 := by
  rw [sum_map_sub_const]
  have : (n : ℝ) ≠ 0 := Nat.cast_ne_zero.mpr hn
  field_simp

/-! ## Frontend computations of buildModelFromMatches on the C2 instance -/

theorem cex_played : playedOf cexMatches = cexMatches := by
  unfold playedOf cexMatches
  rw [List.filter_append, filter_replicate_of_pos _ _ rfl, filter_replicate_of_pos _ _ rfl]

theorem cex_teams : teamsOf cexMatches = ["A", "B", "C"] := by
  unfold teamsOf
  rw [cex_played]
  unfold cexMatches
  have hinner : List.foldl (fun acc m => addTeam (addTeam acc m.home) m.away) []
      (List.replicate 1000 cexM1) = ["A", "B"] := by
    rw [show (1000 : ℕ) = 999 + 1 from by norm_num]
    rw [List.replicate_succ, List.foldl_cons]
    rw [show addTeam (addTeam [] cexM1.home) cexM1.away = ["A", "B"] from rfl]
    exact foldl_replicate_fix _ _ _ rfl 999
  have houter : List.foldl (fun acc m => addTeam (addTeam acc m.home) m.away) ["A", "B"]
      (List.replicate 1000 cexM2) = ["A", "B", "C"] := by
    rw [show (1000 : ℕ) = 999 + 1 from by norm_num]
    rw [List.replicate_succ, List.foldl_cons]
    rw [show addTeam (addTeam ["A", "B"] cexM2.home) cexM2.away = ["A", "B", "C"] from rfl]
    exact foldl_replicate_fix _ _ _ rfl 999
  rw [List.foldl_append, hinner, houter]
  rfl

theorem cex_length : cexMatches.length = 2000 := by
  unfold cexMatches
  rw [List.length_append, List.length_replicate, List.length_replicate]

theorem cex_league : leagueAvgOf cexMatches = 7 := by
  unfold leagueAvgOf
  rw [cex_played]
  rw [if_pos (by rw [cex_length]; norm_num)]
  unfold cexMatches
  rw [List.map_append, List.map_replicate, List.map_replicate,
    List.sum_append, List.sum_replicate, List.sum_replicate]
  rw [show cexM1.hg.getD 0 + cexM1.ag.getD 0 = (7 : ℝ) from by unfold cexM1; norm_num]
  rw [show cexM2.hg.getD 0 + cexM2.ag.getD 0 = (7 : ℝ) from by unfold cexM2; norm_num]
  rw [List.length_append, List.length_replicate, List.length_replicate]
  norm_num

theorem cex_shrink : shrinkGoals 7 0 7 = (6.65, 0.35) := by
  unfold shrinkGoals
  rw [if_neg (by norm_num)]
  rw [clampR_of_mem (by norm_num) (by norm_num [GOAL_CAP]),
    clampR_of_mem (le_refl 0) (by norm_num [GOAL_CAP])]
  norm_num [SHRINK_ALPHA]

theorem cex_adj : playedAdjOf cexMatches = List.replicate 1000 cexA1 ++ List.replicate 1000 cexA2 := by
  unfold playedAdjOf
  simp only [cex_played, cex_league]
  unfold cexMatches
  rw [List.map_append, List.map_replicate, List.map_replicate]
  have e1 : ({ home := cexM1.home, away := cexM1.away, kickoff := cexM1.kickoff.getD 0
               hgAdj := (shrinkGoals (cexM1.hg.getD 0) (cexM1.ag.getD 0) 7).1
               agAdj := (shrinkGoals (cexM1.hg.getD 0) (cexM1.ag.getD 0) 7).2 } : AdjM) = cexA1 := by
    unfold cexM1 cexA1
    simp only [Option.getD_some]
    rw [cex_shrink]
  have e2 : ({ home := cexM2.home, away := cexM2.away, kickoff := cexM2.kickoff.getD 0
               hgAdj := (shrinkGoals (cexM2.hg.getD 0) (cexM2.ag.getD 0) 7).1
               agAdj := (shrinkGoals (cexM2.hg.getD 0) (cexM2.ag.getD 0) 7).2 } : AdjM) = cexA2 := by
    unfold cexM2 cexA2
    simp only [Option.getD_some]
    rw [cex_shrink]
  rw [e1, e2]

theorem cex_finalStateOf : finalStateOf cexMatches 0 240 = cexFinal := by
  unfold finalStateOf cexFinal cexStep cexLam
  simp only [cex_teams, cex_adj]
  rfl

/-- Witness for C10 on the model fitted from the one-match training list. -/
theorem c10_witness :
    (buildModelFromMatches witMs 0 240 6).elim False (fun model =>
      (-0.25 ≤ model.ha ∧ model.ha ≤ 0.50) ∧
      (∀ x ∈ model.attH, -1.4 ≤ x ∧ x ≤ 1.4) ∧
      (∀ x ∈ model.defH, -1.4 ≤ x ∧ x ≤ 1.4) ∧
      (∀ x ∈ model.attA, -1.4 ≤ x ∧ x ≤ 1.4) ∧
      (∀ x ∈ model.defA, -1.4 ≤ x ∧ x ≤ 1.4) ∧
      (∀ home away : String, model.teams.contains home = true →
        model.teams.contains away = true →
        (matchProbs (some model) home away).muH ≤ Real.exp 3.3 ∧
        (matchProbs (some model) home away).muA ≤ Real.exp 3.3)) := by
  have hsome : (buildModelFromMatches witMs 0 240 6).isSome = true := rfl
  rw [← Option.some_get hsome]
  exact c10_parameter_clamps witMs 0 240 6 _ (Option.some_get hsome).symm

theorem exp012_lt : Real.exp (3/25) < 2.72 := by
  have h1 : Real.exp (3/25) ≤ Real.exp 1 := Real.exp_le_exp.mpr (by norm_num)
  have h2 : Real.exp 1 < 2.7182818286 := Real.exp_one_lt_d9
  linarith

theorem idxA : ((["A", "B", "C"] : List String).indexOf "A") = 0 := rfl
theorem idxB : ((["A", "B", "C"] : List String).indexOf "B") = 1 := rfl
theorem idxC : ((["A", "B", "C"] : List String).indexOf "C") = 2 := rfl

theorem cexStep_init : SatOdd (cexStep initFitState) := by
  have hE : Real.exp (3/25) < 2.72 := exp012_lt
  unfold SatOdd cexStep fitStep initFitState
  simp only [List.map_append, List.map_replicate, List.sum_append, List.sum_replicate,
    idxA, idxB, idxC, cexA1, cexA2]
  simp only [List.range_succ, List.range_zero, List.map_nil, List.map_append, List.map_cons,
    List.sum_append, List.sum_cons, List.sum_nil, nsmul_eq_mul, sub_self, sup_idem, mul_zero,
    neg_zero, Real.exp_zero, mul_one, if_true, HA_L2, HA_L2_HA]
  norm_num
  refine ⟨?_, ?_, ?_, ?_, ?_⟩
  · exact clampR_eq_hi (by linarith) (by norm_num)
  · exact clampR_eq_lo (by linarith) (by norm_num)
  · exact clampR_eq_lo (by linarith) (by norm_num)
  · exact clampR_eq_hi (by linarith) (by norm_num)
  · exact clampR_eq_hi (by linarith) (by norm_num)

theorem exp33_gt : (19.6 : ℝ) < Real.exp (33/10) := by
  have h3 : Real.exp 3 = (Real.exp 1) ^ 3 := by
    rw [← Real.exp_nat_mul]; norm_num
  have h1 : (2.7182818283 : ℝ) < Real.exp 1 := Real.exp_one_gt_d9
  have hp : (2.7182818283 : ℝ) ^ 3 ≤ (Real.exp 1) ^ 3 := pow_le_pow_left₀ (by norm_num) h1.le 3
  have h2 : Real.exp 3 ≤ Real.exp (33/10) := Real.exp_le_exp.mpr (by norm_num)
  nlinarith

theorem exp305_lt : Real.exp (-(61/20)) < 1 := by
  rw [Real.exp_lt_one_iff]
  norm_num

theorem cexStep_odd_even (s : FitState) (h : SatOdd s) : SatEven (cexStep s) := by
  obtain ⟨h1, h2, h3, h4, h5, h6, h7⟩ := h
  have hE : (19.6 : ℝ) < Real.exp (33/10) := exp33_gt
  unfold SatEven cexStep fitStep
  simp only [List.map_append, List.map_replicate, List.sum_append, List.sum_replicate,
    idxA, idxB, idxC, cexA1, cexA2]
  simp only [List.range_succ, List.range_zero, List.map_nil, List.map_append, List.map_cons,
    List.sum_append, List.sum_cons, List.sum_nil, nsmul_eq_mul, sub_self, sup_idem, mul_zero,
    neg_zero, Real.exp_zero, mul_one, if_true, HA_L2, HA_L2_HA, h1, h2, h3, h4, h5, h6, h7]
  norm_num
  refine ⟨?_, ?_, ?_, ?_, ?_⟩
  · exact clampR_eq_lo (by linarith) (by norm_num)
  · exact clampR_eq_hi (by linarith) (by norm_num)
  · exact clampR_eq_hi (by linarith) (by norm_num)
  · exact clampR_eq_lo (by linarith) (by norm_num)
  · exact clampR_eq_lo (by linarith) (by norm_num)

theorem cexStep_even_odd (s : FitState) (h : SatEven s) : SatOdd (cexStep s) := by
  obtain ⟨h1, h2, h3, h4, h5, h6, h7⟩ := h
  have hE : Real.exp (-(61/20)) < 1 := exp305_lt
  have hEpos : 0 < Real.exp (-(61/20)) := Real.exp_pos _
  unfold SatOdd cexStep fitStep
  simp only [List.map_append, List.map_replicate, List.sum_append, List.sum_replicate,
    idxA, idxB, idxC, cexA1, cexA2]
  simp only [List.range_succ, List.range_zero, List.map_nil, List.map_append, List.map_cons,
    List.sum_append, List.sum_cons, List.sum_nil, nsmul_eq_mul, sub_self, sup_idem, mul_zero,
    neg_zero, Real.exp_zero, mul_one, if_true, HA_L2, HA_L2_HA, h1, h2, h3, h4, h5, h6, h7]
  norm_num
  refine ⟨?_, ?_, ?_, ?_, ?_⟩
  · exact clampR_eq_hi (by linarith) (by norm_num)
  · exact clampR_eq_lo (by linarith) (by norm_num)
  · exact clampR_eq_lo (by linarith) (by norm_num)
  · exact clampR_eq_hi (by linarith) (by norm_num)
  · exact clampR_eq_hi (by linarith) (by norm_num)

theorem cexStep_iterate_even : ∀ (j : ℕ) (s : FitState), SatOdd s → SatOdd (cexStep^[2*j] s) := by
  intro j
  induction j with
  | zero => intro s h; simpa using h
  | succ k ih =>
    intro s h
    rw [show 2*(k+1) = 2*k + 2 from by ring, Function.iterate_add_apply]
    have h2 : cexStep^[2] s = cexStep (cexStep s) := by
      rw [show (2 : ℕ) = 1 + 1 from rfl, Function.iterate_add_apply, Function.iterate_one]
    rw [h2]
    exact ih _ (cexStep_even_odd _ (cexStep_odd_even _ h))

theorem cexFinal_even : SatEven cexFinal := by
  unfold cexFinal
  rw [show (260 : ℕ) = 259 + 1 from by norm_num, Function.iterate_succ_apply]
  rw [show (259 : ℕ) = 2*129 + 1 from by norm_num, Function.iterate_succ_apply']
  exact cexStep_odd_even _ (cexStep_iterate_even 129 _ cexStep_init)

/-- C2 counterexample: on the concrete training list cexMatches (1000 copies
of A beating B 7-0 plus 1000 copies of A beating C 7-0, all at the build
timestamp), the fitted model's attH vector is the saturated [-1.4, 1.4, 1.4]:
the clamp that follows the re-centering in every iteration leaves a mean of
7/15, far outside any floating tolerance, refuting the claim that the mean of
every strength vector of every fitted model is 0. -/
theorem c2_counterexample :
    (buildModelFromMatches cexMatches 0 240 6).elim False (fun model =>
      model.teams.length = 3 ∧ model.attH = [-1.4, 1.4, 1.4] ∧
      model.attH.sum / (model.teams.length : ℝ) = 7/15 ∧
      model.attH.sum / (model.teams.length : ℝ) ≠ 0) := by
  have hn : (teamsOf cexMatches).length ≠ 0 := by rw [cex_teams]; norm_num
  have hb : buildModelFromMatches cexMatches 0 240 6 = some
      { teams := teamsOf cexMatches
        attH := (List.range (teamsOf cexMatches).length).map (finalStateOf cexMatches 0 240).attH
        defH := (List.range (teamsOf cexMatches).length).map (finalStateOf cexMatches 0 240).defH
        attA := (List.range (teamsOf cexMatches).length).map (finalStateOf cexMatches 0 240).attA
        defA := (List.range (teamsOf cexMatches).length).map (finalStateOf cexMatches 0 240).defA
        ha := (finalStateOf cexMatches 0 240).ha
        halfLifeDays := 240
        minGamesPerTeam := 6
        games := gamesOf cexMatches
        leagueAvgGoals := leagueAvgOf cexMatches
        calibration := none } := by
    unfold buildModelFromMatches
    rw [if_neg hn]
  rw [hb]
  simp only [Option.elim]
  obtain ⟨e1, e2, e3, _, _, _, _⟩ := cexFinal_even
  have hattH : (List.range (teamsOf cexMatches).length).map
      (finalStateOf cexMatches 0 240).attH = [-1.4, 1.4, 1.4] := by
    rw [cex_finalStateOf, cex_teams]
    rw [show ((["A", "B", "C"] : List String).length) = 3 from rfl]
    rw [show List.range 3 = [0, 1, 2] from rfl]
    simp only [List.map_cons, List.map_nil]
    rw [e1, e2, e3]
  refine ⟨?_, ?_, ?_, ?_⟩
  · show (teamsOf cexMatches).length = 3
    rw [cex_teams]
    rfl
  · exact hattH
  · show ((List.range (teamsOf cexMatches).length).map
        (finalStateOf cexMatches 0 240).attH).sum / ((teamsOf cexMatches).length : ℝ) = 7/15
    rw [hattH, cex_teams]
    norm_num
  · show ((List.range (teamsOf cexMatches).length).map
        (finalStateOf cexMatches 0 240).attH).sum / ((teamsOf cexMatches).length : ℝ) ≠ 0
    rw [hattH, cex_teams]
    norm_num

theorem fitStep_recentered (n : ℕ) (idx : String → ℕ) (padj : List AdjM) (now lam : ℝ)
    (s : FitState) (hn : n ≠ 0) :
    (∃ w : ℕ → ℝ, ((List.range n).map w).sum = 0 ∧
      (fitStep n idx padj now lam s).attH = fun i => clampR (w i) (-1.4) 1.4) ∧
    (∃ w : ℕ → ℝ, ((List.range n).map w).sum = 0 ∧
      (fitStep n idx padj now lam s).defH = fun i => clampR (w i) (-1.4) 1.4) ∧
    (∃ w : ℕ → ℝ, ((List.range n).map w).sum = 0 ∧
      (fitStep n idx padj now lam s).attA = fun i => clampR (w i) (-1.4) 1.4) ∧
    (∃ w : ℕ → ℝ, ((List.range n).map w).sum = 0 ∧
      (fitStep n idx padj now lam s).defA = fun i => clampR (w i) (-1.4) 1.4) := by
  unfold fitStep
  refine ⟨⟨_, ?_, rfl⟩, ⟨_, ?_, rfl⟩, ⟨_, ?_, rfl⟩, ⟨_, ?_, rfl⟩⟩ <;>
    exact zmean_sum_zero _ n hn

/-- C2 amended: in every optimization iteration each strength vector is
re-centered to zero mean and then clamped entrywise, so each strength vector
of a fitted model is the entrywise clamp to [-1.4, 1.4] of a vector with zero
mean over the competitor slots; the fitted vector itself has zero mean (sum 0)
whenever the final clamp alters no entry, but the clamp can leave a nonzero
mean (see the counterexample). -/
theorem c2_amended_zero_mean (ms : List UMatch) (now hl : ℝ) (mg : ℕ) (model : Model)
    (hm : buildModelFromMatches ms now hl mg = some model) :
    ∃ wAH wDH wAA wDA : ℕ → ℝ,
      (((List.range model.teams.length).map wAH).sum = 0 ∧
        model.attH = (List.range model.teams.length).map (fun i => clampR (wAH i) (-1.4) 1.4) ∧
        ((∀ i ∈ List.range model.teams.length, |wAH i| ≤ 1.4) → model.attH.sum = 0)) ∧
      (((List.range model.teams.length).map wDH).sum = 0 ∧
        model.defH = (List.range model.teams.length).map (fun i => clampR (wDH i) (-1.4) 1.4) ∧
        ((∀ i ∈ List.range model.teams.length, |wDH i| ≤ 1.4) → model.defH.sum = 0)) ∧
      (((List.range model.teams.length).map wAA).sum = 0 ∧
        model.attA = (List.range model.teams.length).map (fun i => clampR (wAA i) (-1.4) 1.4) ∧
        ((∀ i ∈ List.range model.teams.length, |wAA i| ≤ 1.4) → model.attA.sum = 0)) ∧
      (((List.range model.teams.length).map wDA).sum = 0 ∧
        model.defA = (List.range model.teams.length).map (fun i => clampR (wDA i) (-1.4) 1.4) ∧
        ((∀ i ∈ List.range model.teams.length, |wDA i| ≤ 1.4) → model.defA.sum = 0)) := by
  obtain ⟨hn, hmodel⟩ := buildModel_inv hm
  have hsucc : finalStateOf ms now hl =
      fitStep (teamsOf ms).length (fun t => (teamsOf ms).indexOf t) (playedAdjOf ms) now
        (Real.log 2 / (hl * 24 * 3600 * 1000))
        ((fitStep (teamsOf ms).length (fun t => (teamsOf ms).indexOf t) (playedAdjOf ms) now
          (Real.log 2 / (hl * 24 * 3600 * 1000)))^[259] initFitState) := by
    unfold finalStateOf
    rw [show (260 : ℕ) = 259 + 1 from rfl, Function.iterate_succ_apply']
  obtain ⟨⟨w1, hw1s, hw1e⟩, ⟨w2, hw2s, hw2e⟩, ⟨w3, hw3s, hw3e⟩, ⟨w4, hw4s, hw4e⟩⟩ :=
    fitStep_recentered (teamsOf ms).length (fun t => (teamsOf ms).indexOf t) (playedAdjOf ms)
      now (Real.log 2 / (hl * 24 * 3600 * 1000))
      ((fitStep (teamsOf ms).length (fun t => (teamsOf ms).indexOf t) (playedAdjOf ms) now
        (Real.log 2 / (hl * 24 * 3600 * 1000)))^[259] initFitState) hn
  subst hmodel
  refine ⟨w1, w2, w3, w4, ⟨?_, ?_, ?_⟩, ⟨?_, ?_, ?_⟩, ⟨?_, ?_, ?_⟩, ⟨?_, ?_, ?_⟩⟩
  · exact hw1s
  · show (List.range (teamsOf ms).length).map (finalStateOf ms now hl).attH = _
    rw [hsucc, hw1e]
  · intro hb
    show ((List.range (teamsOf ms).length).map (finalStateOf ms now hl).attH).sum = 0
    rw [hsucc, hw1e]
    rw [List.map_congr_left (fun i hi => clampR_of_mem (abs_le.mp (hb i hi)).1
      (abs_le.mp (hb i hi)).2)]
    exact hw1s
  · exact hw2s
  · show (List.range (teamsOf ms).length).map (finalStateOf ms now hl).defH = _
    rw [hsucc, hw2e]
  · intro hb
    show ((List.range (teamsOf ms).length).map (finalStateOf ms now hl).defH).sum = 0
    rw [hsucc, hw2e]
    rw [List.map_congr_left (fun i hi => clampR_of_mem (abs_le.mp (hb i hi)).1
      (abs_le.mp (hb i hi)).2)]
    exact hw2s
  · exact hw3s
  · show (List.range (teamsOf ms).length).map (finalStateOf ms now hl).attA = _
    rw [hsucc, hw3e]
  · intro hb
    show ((List.range (teamsOf ms).length).map (finalStateOf ms now hl).attA).sum = 0
    rw [hsucc, hw3e]
    rw [List.map_congr_left (fun i hi => clampR_of_mem (abs_le.mp (hb i hi)).1
      (abs_le.mp (hb i hi)).2)]
    exact hw3s
  · exact hw4s
  · show (List.range (teamsOf ms).length).map (finalStateOf ms now hl).defA = _
    rw [hsucc, hw4e]
  · intro hb
    show ((List.range (teamsOf ms).length).map (finalStateOf ms now hl).defA).sum = 0
    rw [hsucc, hw4e]
    rw [List.map_congr_left (fun i hi => clampR_of_mem (abs_le.mp (hb i hi)).1
      (abs_le.mp (hb i hi)).2)]
    exact hw4s

/-- Witness for the amended C2 on the one-match training list. -/
theorem c2_witness :
    (buildModelFromMatches witMs 0 240 6).elim False (fun model =>
      ∃ wAH wDH wAA wDA : ℕ → ℝ,
      (((List.range model.teams.length).map wAH).sum = 0 ∧
        model.attH = (List.range model.teams.length).map (fun i => clampR (wAH i) (-1.4) 1.4) ∧
        ((∀ i ∈ List.range model.teams.length, |wAH i| ≤ 1.4) → model.attH.sum = 0)) ∧
      (((List.range model.teams.length).map wDH).sum = 0 ∧
        model.defH = (List.range model.teams.length).map (fun i => clampR (wDH i) (-1.4) 1.4) ∧
        ((∀ i ∈ List.range model.teams.length, |wDH i| ≤ 1.4) → model.defH.sum = 0)) ∧
      (((List.range model.teams.length).map wAA).sum = 0 ∧
        model.attA = (List.range model.teams.length).map (fun i => clampR (wAA i) (-1.4) 1.4) ∧
        ((∀ i ∈ List.range model.teams.length, |wAA i| ≤ 1.4) → model.attA.sum = 0)) ∧
      (((List.range model.teams.length).map wDA).sum = 0 ∧
        model.defA = (List.range model.teams.length).map (fun i => clampR (wDA i) (-1.4) 1.4) ∧
        ((∀ i ∈ List.range model.teams.length, |wDA i| ≤ 1.4) → model.defA.sum = 0))) := by
  have hsome : (buildModelFromMatches witMs 0 240 6).isSome = true := rfl
  rw [← Option.some_get hsome]
  exact c2_amended_zero_mean witMs 0 240 6 _ (Option.some_get hsome).symm

end ALeague
